import Mathlib

/-!
Verification development for the neighborhood-community web application.

The source is three TypeScript/React files:
* `src/app/onboarding/page.tsx` — a three-step onboarding form that, on final
  submission, upserts a `user_profiles` row and a `neighborhoods` row into
  Supabase and then redirects to the dashboard;
* `NeighborhoodMap` component — geocodes an address via the Mapbox API once on
  mount, draws a marker at the selected feature's center and adds static
  administrative-boundary layers (admin levels 8 and 6);
* a NextAuth route handler and a hamburger-menu component (not claim-relevant).

The straight-line async handlers are embedded as pure functions from their
environment (session, auth user, database responses, geocoding response) to an
explicit record of effects (rows upserted, redirect issued, error displayed).
-/

namespace Onboarding

/-- The `FormData` interface of `onboarding/page.tsx` (lines 7–14). -/
structure FormData where
  neighborhoodName : String
  address : String
  city : String
  state : String
  interests : List String
  communityType : String
deriving Repr, DecidableEq

/-- The field names of the `FormData` interface, in source order. -/
def formDataFields : List String :=
  ["neighborhoodName", "address", "city", "state", "interests", "communityType"]

/-- The form fields rendered (hence collected) at each of the three steps:
step 1 collects the neighborhood name, step 2 the address, city, state and
community type, step 3 the interests checkboxes. -/
def stepFields : Nat → List String
  | 1 => ["neighborhoodName"]
  | 2 => ["address", "city", "state", "communityType"]
  | 3 => ["interests"]
  | _ => []

/-- Row shape upserted into the `user_profiles` table (lines 96–108).
The two timestamp columns are both `new Date().toISOString()`, modelled by the
single wall-clock parameter `now`. -/
structure ProfileRow where
  user_id : String
  neighborhood_name : String
  address : String
  city : String
  state : String
  interests : List String
  community_type : String
  created_at : String
  updated_at : String
deriving Repr, DecidableEq

/-- Row shape upserted into the `neighborhoods` table (lines 116–126). -/
structure NeighborhoodRow where
  user_id : String
  name : String
  address : String
  city : String
  state : String
  created_at : String
  updated_at : String
deriving Repr, DecidableEq

/-- The profile row built from the authenticated user id and the form data. -/
def mkProfileRow (uid : String) (fd : FormData) (now : String) : ProfileRow :=
  { user_id := uid
    neighborhood_name := fd.neighborhoodName
    address := fd.address
    city := fd.city
    state := fd.state
    interests := fd.interests
    community_type := fd.communityType
    created_at := now
    updated_at := now }

/-- The neighborhood row built from the authenticated user id and the form data. -/
def mkNeighborhoodRow (uid : String) (fd : FormData) (now : String) : NeighborhoodRow :=
  { user_id := uid
    name := fd.neighborhoodName
    address := fd.address
    city := fd.city
    state := fd.state
    created_at := now
    updated_at := now }

/-- An upsert call issued to the hosted database, tagged with its table. -/
inductive Write where
  | profile (row : ProfileRow)
  | neighborhood (row : NeighborhoodRow)
deriving Repr, DecidableEq

/-- The environment `handleSubmit` runs against: the auth user (if any) and the
database's response to each upsert (`none` = success, `some msg` = error with
message `msg`, as in the Supabase `{ error }` result). -/
structure SubmitEnv where
  user : Option String
  profileResult : Option String
  neighborhoodResult : Option String
deriving Repr, DecidableEq

/-- The observable outcome of one `handleSubmit` invocation. -/
structure SubmitOutcome where
  /-- the `step` state after the handler returns -/
  step : Nat
  /-- upsert calls issued, in order -/
  attempts : List Write
  /-- rows actually written (attempts whose upsert succeeded) -/
  writes : List Write
  /-- the redirect issued via `router.push`, if any -/
  redirect : Option String
  /-- the `error` state after the handler returns -/
  error : Option String
  /-- the `isSubmitting` state after the handler returns -/
  isSubmitting : Bool
deriving Repr, DecidableEq

/-- `setError(error.message || '...')` of line 138: an empty message falls back
to the generic string. -/
def displayError (msg : String) : String :=
  if msg = "" then "An error occurred while saving your profile" else msg

/-- Shallow embedding of `handleSubmit` (lines 71–145).  `error0` and
`submitting0` are the `error`/`isSubmitting` states on entry (only relevant on
the early-return path, which does not touch them). -/
def handleSubmit (step : Nat) (fd : FormData) (env : SubmitEnv) (now : String)
    (error0 : Option String) (submitting0 : Bool) : SubmitOutcome :=
  if step < 3 then
    { step := step + 1, attempts := [], writes := [], redirect := none,
      error := error0, isSubmitting := submitting0 }
  else
    match env.user with
    | none =>
      -- `throw new Error('No user found')`, caught: error string shown
      { step := step, attempts := [], writes := [], redirect := none,
        error := some "No user found", isSubmitting := false }
    | some uid =>
      let pRow := mkProfileRow uid fd now
      match env.profileResult with
      | some msg =>
        { step := step, attempts := [Write.profile pRow], writes := [],
          redirect := none, error := some (displayError msg), isSubmitting := false }
      | none =>
        let nRow := mkNeighborhoodRow uid fd now
        match env.neighborhoodResult with
        | some msg =>
          { step := step, attempts := [Write.profile pRow, Write.neighborhood nRow],
            writes := [Write.profile pRow],
            redirect := none, error := some (displayError msg), isSubmitting := false }
        | none =>
          { step := step, attempts := [Write.profile pRow, Write.neighborhood nRow],
            writes := [Write.profile pRow, Write.neighborhood nRow],
            redirect := some "/dashboard", error := none, isSubmitting := false }

/-- Number of upsert attempts a `Write` list makes on the `user_profiles` table. -/
def countProfileAttempts (ws : List Write) : Nat :=
  (ws.filter fun w => match w with | Write.profile _ => true | _ => false).length

/-- Number of upsert attempts a `Write` list makes on the `neighborhoods` table. -/
def countNeighborhoodAttempts (ws : List Write) : Nat :=
  (ws.filter fun w => match w with | Write.neighborhood _ => true | _ => false).length

/-- `handleInterestToggle` (lines 62–69): remove the interest if present
(JS `filter(i => i !== interest)`), otherwise append it. -/
def handleInterestToggle (interests : List String) (interest : String) : List String :=
  if interests.contains interest then
    interests.filter fun i => i ≠ interest
  else
    interests ++ [interest]

/-- Actions observable during the `checkAuth` effect (lines 30–52). -/
inductive Action where
  | getSession
  | queryProfile (uid : String)
  | redirect (path : String)
  | upsert (w : Write)
deriving Repr, DecidableEq

/-- Shallow embedding of `checkAuth` (lines 30–52) as its action trace:
fetch the session; with no session redirect to the login page and stop;
otherwise look up the user's profile row and, if one exists, redirect to the
dashboard. -/
def checkAuthTrace (session : Option String) (profileOf : String → Option ProfileRow) :
    List Action :=
  match session with
  | none => [Action.getSession, Action.redirect "/auth/login"]
  | some uid =>
    match profileOf uid with
    | some _ => [Action.getSession, Action.queryProfile uid, Action.redirect "/dashboard"]
    | none => [Action.getSession, Action.queryProfile uid]

/-- One user interaction with the step controls of the form. -/
inductive StepEvent where
  | submit
  | back
deriving Repr, DecidableEq

/-- The step transition of the form: submit increments the step while it is
below 3 and leaves it unchanged on the final step (lines 73–76); the Back
button is rendered only when `step > 1` and sets `step - 1` (lines 284–292).
`none` means the event is impossible in that state. -/
def stepNext (s : Nat) : StepEvent → Option Nat
  | StepEvent.submit => if s < 3 then some (s + 1) else some s
  | StepEvent.back => if s > 1 then some (s - 1) else none

/-- States of the step counter reachable from the initial state `1`. -/
inductive ReachableStep : Nat → Prop where
  | init : ReachableStep 1
  | next (s t : Nat) (e : StepEvent) :
      ReachableStep s → stepNext s e = some t → ReachableStep t

end Onboarding

namespace NeighborhoodMap

/-- A Mapbox context entry (`interface MapboxContext`): an id such as
`place.12345` or `region.678` and a display text. -/
structure MapboxContext where
  id : String
  text : String
deriving Repr, DecidableEq

/-- Geographic coordinates of a feature center.  The source holds IEEE-754
doubles but performs no arithmetic on them — a center is only compared and
passed through — so any carrier with decidable equality is adequate; we use a
pair of integers scaled by the caller. -/
structure Coord where
  lng : Int
  lat : Int
deriving Repr, DecidableEq

/-- A Mapbox geocoding feature (`interface MapboxFeature`): a center and an
optional context list (a missing context behaves like an empty one under
`context?.find`). -/
structure MapboxFeature where
  center : Coord
  context : List MapboxContext
deriving Repr, DecidableEq

/-- `p.data` occurs as a prefix of `s`. -/
def charsStartWith : List Char → List Char → Bool
  | [], _ => true
  | _ :: _, [] => false
  | p :: ps, c :: cs => p == c && charsStartWith ps cs

/-- Whether `pat` occurs contiguously inside `s` (JS `String.includes`). -/
def charsContain (pat : List Char) : List Char → Bool
  | [] => charsStartWith pat []
  | c :: cs => charsStartWith pat (c :: cs) || charsContain pat cs

/-- JS `s.includes(pat)`. -/
def strIncludes (s pat : String) : Bool := charsContain pat.data s.data

/-- JS `s.toLowerCase()` (ASCII): lower each character. -/
def lowerStr (s : String) : String := String.mk (s.data.map Char.toLower)

/-- `feature.context?.find(ctx => ctx.id.includes(key))?.text` (lines 113–114). -/
def contextText (key : String) (f : MapboxFeature) : Option String :=
  (f.context.find? fun c => strIncludes c.id key).map MapboxContext.text

/-- The predicate of `data.features.find` (lines 112–117): the feature's place
context equals the given city and its region context equals the given state,
case-insensitively.  As in JS, two absent sides compare equal
(`undefined === undefined`). -/
def matchesCityState (city state : Option String) (f : MapboxFeature) : Bool :=
  ((contextText "place" f).map lowerStr == city.map lowerStr) &&
  ((contextText "region" f).map lowerStr == state.map lowerStr)

/-- `const relevantFeature = data.features.find(...) || data.features[0]`
(lines 112–117), given a nonempty feature list with head `f₀`. -/
def relevantFeature (city state : Option String) (f₀ : MapboxFeature)
    (fs : List MapboxFeature) : MapboxFeature :=
  ((f₀ :: fs).find? (matchesCityState city state)).getD f₀

/-- A style layer added to the map, reduced to the attributes the claims are
about: its id, its layer type, and the `admin_level` its filter selects (none
for the unfiltered circle layer). -/
structure MapLayer where
  id : String
  kind : String
  adminLevel : Option Nat
deriving Repr, DecidableEq

/-- The four administrative-boundary layers added in lines 179–232: fill and
line layers filtered on `admin_level == 8`, then fill and line layers filtered
on `admin_level == 6`.  Their ids, types, paints and filters are literals —
static, independent of every input. -/
def adminLayers : List MapLayer :=
  [ { id := "neighborhood-boundaries", kind := "fill", adminLevel := some 8 },
    { id := "neighborhood-boundaries-line", kind := "line", adminLevel := some 8 },
    { id := "city-boundaries", kind := "fill", adminLevel := some 6 },
    { id := "city-boundaries-line", kind := "line", adminLevel := some 6 } ]

/-- All layers added after a successful geocode: the neighborhood circle layer
(lines 157–169) followed by the administrative-boundary layers. -/
def mapLayers : List MapLayer :=
  { id := "neighborhood-fill", kind := "circle", adminLevel := none } :: adminLayers

/-- The outcome of the single `geocodeAddress()` call of one mount: either the
fetch/parse threw, or it produced a (possibly empty) feature list. -/
inductive GeocodeResult where
  | failure
  | response (features : List MapboxFeature)
deriving Repr, DecidableEq

/-- What the component shows: the error box (lines 280–286) or the map canvas. -/
inductive MapRender where
  | errorBox (msg : String)
  | canvas
deriving Repr, DecidableEq

/-- The observable outcome of one mount of `NeighborhoodMap`. -/
structure MapOutcome where
  /-- number of requests sent to the geocoding endpoint -/
  geocodeCalls : Nat
  /-- the marker placed, if any (lines 130–134) -/
  marker : Option Coord
  /-- the style layers added -/
  layers : List MapLayer
  /-- the `error` state after the effect settles -/
  error : Option String
deriving Repr, DecidableEq

/-- Shallow embedding of one mount of `NeighborhoodMap` (lines 54–278): the
effect calls `geocodeAddress()` exactly once; on a thrown error it sets
`'Failed to load map data'`; on an empty feature list it sets
`'Could not find the specified location'`; otherwise it places a marker at the
relevant feature's center and adds the layers.  No code path issues a second
geocoding request. -/
def mountMap (g : GeocodeResult) (city state : Option String) : MapOutcome :=
  match g with
  | GeocodeResult.failure =>
    { geocodeCalls := 1, marker := none, layers := [],
      error := some "Failed to load map data" }
  | GeocodeResult.response [] =>
    { geocodeCalls := 1, marker := none, layers := [],
      error := some "Could not find the specified location" }
  | GeocodeResult.response (f₀ :: fs) =>
    { geocodeCalls := 1,
      marker := some (relevantFeature city state f₀ fs).center,
      layers := mapLayers,
      error := none }

/-- The render of the component given its `error` state (lines 280–292). -/
def renderMap (o : MapOutcome) : MapRender :=
  match o.error with
  | some msg => MapRender.errorBox msg
  | none => MapRender.canvas

end NeighborhoodMap

namespace Samples

/-- A concrete filled form, used to instantiate the theorems. -/
def fd0 : Onboarding.FormData :=
  { neighborhoodName := "Elm Heights", address := "1 Main St", city := "Provo",
    state := "UT", interests := ["events", "safety"], communityType := "residential" }

/-- Environment where the user is authenticated and both upserts succeed. -/
def envOk : Onboarding.SubmitEnv :=
  { user := some "u0", profileResult := none, neighborhoodResult := none }

/-- Environment where the user is authenticated, the profile upsert succeeds
and the neighborhood upsert fails. -/
def envNbFail : Onboarding.SubmitEnv :=
  { user := some "u0", profileResult := none,
    neighborhoodResult := some "duplicate key" }

/-- Environment where no authenticated user is found. -/
def envNoUser : Onboarding.SubmitEnv :=
  { user := none, profileResult := none, neighborhoodResult := none }

/-- A concrete stored profile row. -/
def row0 : Onboarding.ProfileRow :=
  Onboarding.mkProfileRow "u0" fd0 "2024-01-01T00:00:00Z"

/-- A profile lookup under which user `u0` has completed onboarding. -/
def profileOf0 : String → Option Onboarding.ProfileRow :=
  fun uid => if uid = "u0" then some row0 else none

/-- A geocoding feature with no context entries. -/
def featNoCtx : NeighborhoodMap.MapboxFeature :=
  { center := { lng := -111889, lat := 40233 }, context := [] }

/-- A geocoding feature whose context names Provo, UT. -/
def featProvo : NeighborhoodMap.MapboxFeature :=
  { center := { lng := -111658, lat := 40234 },
    context := [ { id := "place.83", text := "Provo" },
                 { id := "region.5", text := "UT" } ] }

end Samples

/-! ## Theorems -/

/-- C2, counterexample: the `FormData` state interface of the onboarding form
declares six fields, not four as the claim states. -/
theorem formData_not_four_fields :
    Onboarding.formDataFields.length = 6 ∧ Onboarding.formDataFields.length ≠ 4 := by
  decide

/-- C2 (amended): the onboarding form state machine has exactly six fields and
exactly three steps: its state holds six user-entered fields, and submission
advances through steps 1, 2 and 3 before completing — submitting at steps 1
and 2 only increments the step and issues no upsert, and submitting on step 3
leaves the step at 3. -/
theorem form_six_fields_three_steps :
    Onboarding.formDataFields.length = 6 ∧
    (∀ fd env now e0 s0,
      (Onboarding.handleSubmit 1 fd env now e0 s0).step = 2 ∧
      (Onboarding.handleSubmit 1 fd env now e0 s0).attempts = [] ∧
      (Onboarding.handleSubmit 2 fd env now e0 s0).step = 3 ∧
      (Onboarding.handleSubmit 2 fd env now e0 s0).attempts = []) ∧
    Onboarding.stepNext 3 Onboarding.StepEvent.submit = some 3 := by
  exact ⟨by decide, fun fd env now e0 s0 => ⟨rfl, rfl, rfl, rfl⟩, by decide⟩

/-- C7: the number of distinct form fields collected across the three steps is
between four and six (it is six). -/
theorem onboarding_field_count :
    4 ≤ ((Onboarding.stepFields 1 ++ Onboarding.stepFields 2 ++
          Onboarding.stepFields 3).dedup).length ∧
    ((Onboarding.stepFields 1 ++ Onboarding.stepFields 2 ++
      Onboarding.stepFields 3).dedup).length ≤ 6 := by
  decide

/-- C1: on a final-step submission with an authenticated user, the handler
redirects to the dashboard iff both the `user_profiles` upsert and the
`neighborhoods` upsert succeed, in which case exactly two rows are written —
one per table — and in every case each table is upserted at most once. -/
theorem submit_two_upserts_iff_redirect
    (fd : Onboarding.FormData) (env : Onboarding.SubmitEnv) (now : String)
    (e0 : Option String) (s0 : Bool) (uid : String)
    (huser : env.user = some uid) :
    ((Onboarding.handleSubmit 3 fd env now e0 s0).redirect = some "/dashboard" ↔
      env.profileResult = none ∧ env.neighborhoodResult = none) ∧
    ((Onboarding.handleSubmit 3 fd env now e0 s0).redirect = some "/dashboard" →
      (Onboarding.handleSubmit 3 fd env now e0 s0).writes =
        [Onboarding.Write.profile (Onboarding.mkProfileRow uid fd now),
         Onboarding.Write.neighborhood (Onboarding.mkNeighborhoodRow uid fd now)]) ∧
    Onboarding.countProfileAttempts
      (Onboarding.handleSubmit 3 fd env now e0 s0).attempts ≤ 1 ∧
    Onboarding.countNeighborhoodAttempts
      (Onboarding.handleSubmit 3 fd env now e0 s0).attempts ≤ 1 := by
  obtain ⟨user, pres, nres⟩ := env
  simp only at huser
  subst huser
  cases pres <;> cases nres <;>
    simp [Onboarding.handleSubmit, Onboarding.countProfileAttempts,
          Onboarding.countNeighborhoodAttempts]

/-- Witness for C1 at a concrete successful submission. -/
theorem submit_two_upserts_iff_redirect_witness :
    Samples.envOk.user = some "u0" ∧
    (((Onboarding.handleSubmit 3 Samples.fd0 Samples.envOk "t0" none false).redirect =
        some "/dashboard" ↔
       Samples.envOk.profileResult = none ∧ Samples.envOk.neighborhoodResult = none) ∧
     ((Onboarding.handleSubmit 3 Samples.fd0 Samples.envOk "t0" none false).redirect =
        some "/dashboard" →
       (Onboarding.handleSubmit 3 Samples.fd0 Samples.envOk "t0" none false).writes =
         [Onboarding.Write.profile (Onboarding.mkProfileRow "u0" Samples.fd0 "t0"),
          Onboarding.Write.neighborhood (Onboarding.mkNeighborhoodRow "u0" Samples.fd0 "t0")]) ∧
     Onboarding.countProfileAttempts
       (Onboarding.handleSubmit 3 Samples.fd0 Samples.envOk "t0" none false).attempts ≤ 1 ∧
     Onboarding.countNeighborhoodAttempts
       (Onboarding.handleSubmit 3 Samples.fd0 Samples.envOk "t0" none false).attempts ≤ 1) :=
  ⟨rfl, submit_two_upserts_iff_redirect Samples.fd0 Samples.envOk "t0" none false "u0" rfl⟩

/-- C3: whenever an error arises during final-step submission (no user, or a
failed upsert on either table), the handler only records an error string: the
error state is set, no redirect occurs, `isSubmitting` ends up false, and no
upsert is retried (each table is attempted at most once). -/
theorem submit_error_display_only
    (fd : Onboarding.FormData) (env : Onboarding.SubmitEnv) (now : String)
    (e0 : Option String) (s0 : Bool)
    (herr : env.user = none ∨ env.profileResult ≠ none ∨
            env.neighborhoodResult ≠ none) :
    (Onboarding.handleSubmit 3 fd env now e0 s0).error ≠ none ∧
    (Onboarding.handleSubmit 3 fd env now e0 s0).redirect = none ∧
    (Onboarding.handleSubmit 3 fd env now e0 s0).isSubmitting = false ∧
    Onboarding.countProfileAttempts
      (Onboarding.handleSubmit 3 fd env now e0 s0).attempts ≤ 1 ∧
    Onboarding.countNeighborhoodAttempts
      (Onboarding.handleSubmit 3 fd env now e0 s0).attempts ≤ 1 := by
  obtain ⟨user, pres, nres⟩ := env
  cases user <;> cases pres <;> cases nres <;>
    simp_all [Onboarding.handleSubmit, Onboarding.countProfileAttempts,
              Onboarding.countNeighborhoodAttempts]

/-- Witness for C3 at a concrete submission with no authenticated user. -/
theorem submit_error_display_only_witness :
    (Samples.envNoUser.user = none ∨ Samples.envNoUser.profileResult ≠ none ∨
     Samples.envNoUser.neighborhoodResult ≠ none) ∧
    ((Onboarding.handleSubmit 3 Samples.fd0 Samples.envNoUser "t0" none false).error ≠ none ∧
     (Onboarding.handleSubmit 3 Samples.fd0 Samples.envNoUser "t0" none false).redirect = none ∧
     (Onboarding.handleSubmit 3 Samples.fd0 Samples.envNoUser "t0" none false).isSubmitting = false ∧
     Onboarding.countProfileAttempts
       (Onboarding.handleSubmit 3 Samples.fd0 Samples.envNoUser "t0" none false).attempts ≤ 1 ∧
     Onboarding.countNeighborhoodAttempts
       (Onboarding.handleSubmit 3 Samples.fd0 Samples.envNoUser "t0" none false).attempts ≤ 1) :=
  ⟨Or.inl rfl,
   submit_error_display_only Samples.fd0 Samples.envNoUser "t0" none false (Or.inl rfl)⟩

/-- C8: final-step submission is not atomic across the two tables: if the
`user_profiles` upsert succeeds and the `neighborhoods` upsert fails, the
profile row remains written, an error string is displayed, and no redirect
occurs. -/
theorem submit_partial_write_on_neighborhood_failure
    (fd : Onboarding.FormData) (env : Onboarding.SubmitEnv) (now : String)
    (e0 : Option String) (s0 : Bool) (uid msg : String)
    (huser : env.user = some uid) (hp : env.profileResult = none)
    (hn : env.neighborhoodResult = some msg) :
    (Onboarding.handleSubmit 3 fd env now e0 s0).writes =
      [Onboarding.Write.profile (Onboarding.mkProfileRow uid fd now)] ∧
    (Onboarding.handleSubmit 3 fd env now e0 s0).error =
      some (Onboarding.displayError msg) ∧
    (Onboarding.handleSubmit 3 fd env now e0 s0).redirect = none := by
  obtain ⟨user, pres, nres⟩ := env
  simp only at huser hp hn
  subst huser; subst hp; subst hn
  simp [Onboarding.handleSubmit]

/-- Witness for C8 at a concrete submission whose neighborhood upsert fails. -/
theorem submit_partial_write_on_neighborhood_failure_witness :
    Samples.envNbFail.user = some "u0" ∧
    Samples.envNbFail.profileResult = none ∧
    Samples.envNbFail.neighborhoodResult = some "duplicate key" ∧
    ((Onboarding.handleSubmit 3 Samples.fd0 Samples.envNbFail "t0" none false).writes =
       [Onboarding.Write.profile (Onboarding.mkProfileRow "u0" Samples.fd0 "t0")] ∧
     (Onboarding.handleSubmit 3 Samples.fd0 Samples.envNbFail "t0" none false).error =
       some (Onboarding.displayError "duplicate key") ∧
     (Onboarding.handleSubmit 3 Samples.fd0 Samples.envNbFail "t0" none false).redirect = none) :=
  ⟨rfl, rfl, rfl,
   submit_partial_write_on_neighborhood_failure Samples.fd0 Samples.envNbFail "t0"
     none false "u0" "duplicate key" rfl rfl rfl⟩

/-- C6: authentication precedes onboarding: loading the onboarding page with
no active session produces exactly a session fetch followed by a redirect to
the login page — in particular no profile query and no upsert, so the form is
never submitted — and a user whose profile row already exists is redirected
to the dashboard. -/
theorem auth_precedes_onboarding
    (profileOf : String → Option Onboarding.ProfileRow) :
    (Onboarding.checkAuthTrace none profileOf =
       [Onboarding.Action.getSession, Onboarding.Action.redirect "/auth/login"] ∧
     (∀ w, Onboarding.Action.upsert w ∉ Onboarding.checkAuthTrace none profileOf) ∧
     (∀ uid, Onboarding.Action.queryProfile uid ∉
        Onboarding.checkAuthTrace none profileOf)) ∧
    (∀ uid row, profileOf uid = some row →
       Onboarding.checkAuthTrace (some uid) profileOf =
         [Onboarding.Action.getSession, Onboarding.Action.queryProfile uid,
          Onboarding.Action.redirect "/dashboard"]) := by
  refine ⟨⟨rfl, ?_, ?_⟩, ?_⟩
  · intro w
    simp [Onboarding.checkAuthTrace]
  · intro uid
    simp [Onboarding.checkAuthTrace]
  · intro uid row h
    simp [Onboarding.checkAuthTrace, h]

/-- Witness for C6 at a concrete profile store where user `u0` has a row. -/
theorem auth_precedes_onboarding_witness :
    Samples.profileOf0 "u0" = some Samples.row0 ∧
    Onboarding.checkAuthTrace (some "u0") Samples.profileOf0 =
      [Onboarding.Action.getSession, Onboarding.Action.queryProfile "u0",
       Onboarding.Action.redirect "/dashboard"] :=
  ⟨rfl, (auth_precedes_onboarding Samples.profileOf0).2 "u0" Samples.row0 rfl⟩

/-- C4: every mount of the map widget calls the geocoding endpoint exactly
once — never zero times, and never again after a failure — and when the call
fails (or returns no feature) only an error string is rendered in place of
the map, with no marker and no layers. -/
theorem map_geocodes_exactly_once (g : NeighborhoodMap.GeocodeResult)
    (city state : Option String) :
    (NeighborhoodMap.mountMap g city state).geocodeCalls = 1 ∧
    (g = NeighborhoodMap.GeocodeResult.failure →
      (NeighborhoodMap.mountMap g city state).marker = none ∧
      (NeighborhoodMap.mountMap g city state).layers = [] ∧
      NeighborhoodMap.renderMap (NeighborhoodMap.mountMap g city state) =
        NeighborhoodMap.MapRender.errorBox "Failed to load map data") ∧
    (g = NeighborhoodMap.GeocodeResult.response [] →
      (NeighborhoodMap.mountMap g city state).marker = none ∧
      NeighborhoodMap.renderMap (NeighborhoodMap.mountMap g city state) =
        NeighborhoodMap.MapRender.errorBox "Could not find the specified location") := by
  rcases g with _ | fs
  · simp [NeighborhoodMap.mountMap, NeighborhoodMap.renderMap]
  · cases fs <;> simp [NeighborhoodMap.mountMap, NeighborhoodMap.renderMap]

/-- Witness for C4 at a concrete failed mount. -/
theorem map_geocodes_exactly_once_witness :
    (NeighborhoodMap.mountMap NeighborhoodMap.GeocodeResult.failure none none).geocodeCalls = 1 ∧
    (NeighborhoodMap.mountMap NeighborhoodMap.GeocodeResult.failure none none).marker = none ∧
    (NeighborhoodMap.mountMap NeighborhoodMap.GeocodeResult.failure none none).layers = [] ∧
    NeighborhoodMap.renderMap
      (NeighborhoodMap.mountMap NeighborhoodMap.GeocodeResult.failure none none) =
      NeighborhoodMap.MapRender.errorBox "Failed to load map data" :=
  ⟨(map_geocodes_exactly_once NeighborhoodMap.GeocodeResult.failure none none).1,
   (map_geocodes_exactly_once NeighborhoodMap.GeocodeResult.failure none none).2.1 rfl⟩

/-- Helper: `find?` returns the first element satisfying the predicate. -/
theorem find?_append_first {α : Type} (p : α → Bool) (pre : List α) (f : α)
    (post : List α) (hf : p f = true) (hpre : ∀ x ∈ pre, p x = false) :
    (pre ++ f :: post).find? p = some f := by
  induction pre with
  | nil => simpa using List.find?_cons_of_pos _ hf
  | cons a as ih =>
    have ha : p a = false := hpre a (List.mem_cons_self a as)
    rw [List.cons_append, List.find?_cons_of_neg _ (by simp [ha])]
    exact ih fun x hx => hpre x (List.mem_cons_of_mem a hx)

/-- C5: with a nonempty geocoding feature list, the map draws its marker at
the center of the first feature whose context matches the given city and
state, falling back to the first feature when none matches, and its layer
list contains static administrative-boundary fill and line layers for admin
levels 8 and 6. -/
theorem map_marker_and_admin_layers (city state : Option String)
    (f₀ : NeighborhoodMap.MapboxFeature) (fs : List NeighborhoodMap.MapboxFeature) :
    ((∀ f ∈ f₀ :: fs, NeighborhoodMap.matchesCityState city state f = false) →
      (NeighborhoodMap.mountMap (NeighborhoodMap.GeocodeResult.response (f₀ :: fs))
        city state).marker = some f₀.center) ∧
    (∀ pre f post, f₀ :: fs = pre ++ f :: post →
      NeighborhoodMap.matchesCityState city state f = true →
      (∀ x ∈ pre, NeighborhoodMap.matchesCityState city state x = false) →
      (NeighborhoodMap.mountMap (NeighborhoodMap.GeocodeResult.response (f₀ :: fs))
        city state).marker = some f.center) ∧
    ({ id := "neighborhood-boundaries", kind := "fill", adminLevel := some 8 } ∈
       (NeighborhoodMap.mountMap (NeighborhoodMap.GeocodeResult.response (f₀ :: fs))
         city state).layers) ∧
    ({ id := "neighborhood-boundaries-line", kind := "line", adminLevel := some 8 } ∈
       (NeighborhoodMap.mountMap (NeighborhoodMap.GeocodeResult.response (f₀ :: fs))
         city state).layers) ∧
    ({ id := "city-boundaries", kind := "fill", adminLevel := some 6 } ∈
       (NeighborhoodMap.mountMap (NeighborhoodMap.GeocodeResult.response (f₀ :: fs))
         city state).layers) ∧
    ({ id := "city-boundaries-line", kind := "line", adminLevel := some 6 } ∈
       (NeighborhoodMap.mountMap (NeighborhoodMap.GeocodeResult.response (f₀ :: fs))
         city state).layers) := by
  refine ⟨?_, ?_, ?_, ?_, ?_, ?_⟩
  · intro hnone
    have hfind : (f₀ :: fs).find? (NeighborhoodMap.matchesCityState city state) = none :=
      List.find?_eq_none.mpr fun x hx => by simp [hnone x hx]
    simp [NeighborhoodMap.mountMap, NeighborhoodMap.relevantFeature, hfind]
  · intro pre f post heq hf hpre
    have hfind : (f₀ :: fs).find? (NeighborhoodMap.matchesCityState city state) = some f := by
      rw [heq]
      exact find?_append_first _ pre f post hf hpre
    simp [NeighborhoodMap.mountMap, NeighborhoodMap.relevantFeature, hfind]
  all_goals
    simp [NeighborhoodMap.mountMap, NeighborhoodMap.mapLayers, NeighborhoodMap.adminLayers]

/-- Witness for C5: among a non-matching feature and a Provo/UT feature, the
marker lands on the matching one's center, and the four admin layers are
present. -/
theorem map_marker_and_admin_layers_witness :
    ([Samples.featNoCtx, Samples.featProvo] =
       [Samples.featNoCtx] ++ Samples.featProvo :: []) ∧
    NeighborhoodMap.matchesCityState (some "Provo") (some "UT") Samples.featProvo = true ∧
    (∀ x ∈ [Samples.featNoCtx],
       NeighborhoodMap.matchesCityState (some "Provo") (some "UT") x = false) ∧
    (NeighborhoodMap.mountMap
       (NeighborhoodMap.GeocodeResult.response [Samples.featNoCtx, Samples.featProvo])
       (some "Provo") (some "UT")).marker = some Samples.featProvo.center :=
  ⟨rfl, by decide, by decide,
   (map_marker_and_admin_layers (some "Provo") (some "UT") Samples.featNoCtx
       [Samples.featProvo]).2.1
     [Samples.featNoCtx] Samples.featProvo [] rfl (by decide) (by decide)⟩

/-- C9, counterexample: toggling an interest twice does not restore the
original list — on the duplicate-free list `["events", "safety"]`, toggling
`"events"` twice yields `["safety", "events"]`, because the re-added element
is appended at the end rather than at its original position. -/
theorem interest_toggle_double_not_id :
    (["events", "safety"] : List String).Nodup ∧
    Onboarding.handleInterestToggle
        (Onboarding.handleInterestToggle ["events", "safety"] "events") "events" =
      ["safety", "events"] ∧
    Onboarding.handleInterestToggle
        (Onboarding.handleInterestToggle ["events", "safety"] "events") "events" ≠
      ["events", "safety"] := by
  refine ⟨by decide, by decide, by decide⟩

/-- C9 (amended): on a duplicate-free interests list, toggling `i` flips
exactly the membership of `i`, preserves the no-duplicates property, leaves
all other elements and their relative order unchanged, and toggling `i` twice
restores the original membership (the same set of elements), though not
necessarily the original list; when `i` was absent, the original list itself
is restored. -/
theorem interest_toggle_properties (l : List String) (i : String) (hnd : l.Nodup) :
    (i ∈ Onboarding.handleInterestToggle l i ↔ i ∉ l) ∧
    (Onboarding.handleInterestToggle l i).Nodup ∧
    (∀ j, j ≠ i → (j ∈ Onboarding.handleInterestToggle l i ↔ j ∈ l)) ∧
    ((Onboarding.handleInterestToggle l i).filter (fun j => j ≠ i) =
      l.filter (fun j => j ≠ i)) ∧
    (∀ j, j ∈ Onboarding.handleInterestToggle
            (Onboarding.handleInterestToggle l i) i ↔ j ∈ l) ∧
    (i ∉ l → Onboarding.handleInterestToggle
               (Onboarding.handleInterestToggle l i) i = l) := by
  by_cases hmem : i ∈ l
  · have hc : l.contains i = true := List.elem_iff.mpr hmem
    have ht : Onboarding.handleInterestToggle l i = l.filter (fun j => j ≠ i) := by
      unfold Onboarding.handleInterestToggle; rw [hc]; rfl
    have hnotin : i ∉ l.filter (fun j => j ≠ i) := by
      simp [List.mem_filter]
    have hc2 : (l.filter (fun j => j ≠ i)).contains i = false := by
      rw [← Bool.not_eq_true]
      intro h
      exact hnotin (List.elem_iff.mp h)
    have ht2 : Onboarding.handleInterestToggle
        (Onboarding.handleInterestToggle l i) i = l.filter (fun j => j ≠ i) ++ [i] := by
      rw [ht]; unfold Onboarding.handleInterestToggle; rw [hc2]; rfl
    refine ⟨?_, ?_, ?_, ?_, ?_, ?_⟩
    · rw [ht]; simp [hmem, List.mem_filter]
    · rw [ht]; exact hnd.filter _
    · intro j hj; rw [ht]; simp [List.mem_filter, hj]
    · rw [ht, List.filter_filter]; simp
    · intro j
      rw [ht2]
      simp only [List.mem_append, List.mem_filter, List.mem_singleton,
        decide_eq_true_eq]
      by_cases hji : j = i
      · subst hji; simp [hmem]
      · simp [hji]
    · intro hni; exact absurd hmem hni
  · have hc : l.contains i = false := by
      rw [← Bool.not_eq_true]
      intro h
      exact hmem (List.elem_iff.mp h)
    have ht : Onboarding.handleInterestToggle l i = l ++ [i] := by
      unfold Onboarding.handleInterestToggle; rw [hc]; rfl
    have hfix : l.filter (fun j => j ≠ i) = l :=
      List.filter_eq_self.mpr fun a ha => by
        simp only [decide_eq_true_eq]
        intro hai
        exact hmem (hai ▸ ha)
    have hc3 : (l ++ [i]).contains i = true :=
      List.elem_iff.mpr (by simp)
    have ht2a : Onboarding.handleInterestToggle (l ++ [i]) i =
        (l ++ [i]).filter (fun j => j ≠ i) := by
      unfold Onboarding.handleInterestToggle; rw [hc3]; rfl
    have ht2 : Onboarding.handleInterestToggle
        (Onboarding.handleInterestToggle l i) i = l := by
      rw [ht, ht2a, List.filter_append, hfix]
      simp
    refine ⟨?_, ?_, ?_, ?_, ?_, ?_⟩
    · rw [ht]; simp [hmem]
    · rw [ht]
      exact List.nodup_append.mpr ⟨hnd, List.nodup_singleton i,
        fun a ha hb => hmem ((List.mem_singleton.mp hb) ▸ ha)⟩
    · intro j hj; rw [ht]; simp [hj]
    · rw [ht, List.filter_append, hfix]; simp
    · intro j; rw [ht2]
    · intro _; exact ht2

/-- Witness for C9 (amended) on the concrete list `["events", "safety"]`. -/
theorem interest_toggle_properties_witness :
    (["events", "safety"] : List String).Nodup ∧
    (("events" ∈ Onboarding.handleInterestToggle ["events", "safety"] "events" ↔
        "events" ∉ (["events", "safety"] : List String)) ∧
     (Onboarding.handleInterestToggle ["events", "safety"] "events").Nodup ∧
     (∀ j, j ≠ "events" →
        (j ∈ Onboarding.handleInterestToggle ["events", "safety"] "events" ↔
         j ∈ (["events", "safety"] : List String))) ∧
     ((Onboarding.handleInterestToggle ["events", "safety"] "events").filter
        (fun j => j ≠ "events") =
       (["events", "safety"] : List String).filter (fun j => j ≠ "events")) ∧
     (∀ j, j ∈ Onboarding.handleInterestToggle
             (Onboarding.handleInterestToggle ["events", "safety"] "events") "events" ↔
           j ∈ (["events", "safety"] : List String)) ∧
     ("events" ∉ (["events", "safety"] : List String) →
        Onboarding.handleInterestToggle
          (Onboarding.handleInterestToggle ["events", "safety"] "events") "events" =
          ["events", "safety"])) :=
  ⟨by decide, interest_toggle_properties ["events", "safety"] "events" (by decide)⟩

/-- C10: the step counter is an invariant of the form's step relation: every
state reachable from the initial step 1 via submit (which increments only
below 3) and Back (enabled only above 1, decrementing by 1) has its step in
the range 1 to 3. -/
theorem step_counter_invariant (s : Nat) (h : Onboarding.ReachableStep s) :
    1 ≤ s ∧ s ≤ 3 := by
  induction h with
  | init => exact ⟨Nat.le_refl 1, by omega⟩
  | next s t e hs hstep ih =>
    obtain ⟨ih1, ih2⟩ := ih
    cases e with
    | submit =>
      by_cases hlt : s < 3
      · simp [Onboarding.stepNext, hlt] at hstep
        omega
      · simp [Onboarding.stepNext, hlt] at hstep
        omega
    | back =>
      by_cases hgt : s > 1
      · simp [Onboarding.stepNext, hgt] at hstep
        omega
      · simp [Onboarding.stepNext, hgt] at hstep

/-- Witness for C10 at the reachable state 2 (one submit from the start). -/
theorem step_counter_invariant_witness :
    Onboarding.ReachableStep 2 ∧ (1 ≤ 2 ∧ 2 ≤ 3) :=
  ⟨Onboarding.ReachableStep.next 1 2 Onboarding.StepEvent.submit
     Onboarding.ReachableStep.init rfl,
   step_counter_invariant 2
     (Onboarding.ReachableStep.next 1 2 Onboarding.StepEvent.submit
       Onboarding.ReachableStep.init rfl)⟩
